import Mathlib

/-!
Shallow embedding of the stock-trackr repository's core logic:

* `stock_data.py` — the freshness cache (`_is_cache_valid`, `_update_cache`),
  the provider adapter (`get_stock_data`, `_get_yfinance_data`,
  `_get_alpha_vantage_data`);
* `main.py` — the periodic price monitor (`StockBot.price_monitor`);
* `persistence.py` — `add_tracked_stock` / `remove_tracked_stock`;
* `ai_advisor.py` — `_calculate_technical_indicators`.

Prices, sizes and times are modelled exactly: rationals for float arithmetic
that the program performs on finite values, a dedicated value type `FVal`
for the places where IEEE special values (NaN, infinities) can flow
(pandas/numpy never raise on division by zero), and whole seconds for
timestamps.  Network fetches are passed in as data: `none` models a fetch
that failed or raised (the Python helpers catch every exception and return
`None`).
-/

namespace StockTrackr

/-- One OHLCV row of the pandas daily history used by `stock_data.py` and
`ai_advisor.py`.  The Python `Open/High/Low/Close/Volume` columns are
rationals here (`open` is a Lean keyword, hence `openPrice`). -/
structure Bar where
  openPrice : ℚ
  high : ℚ
  low : ℚ
  close : ℚ
  volume : ℚ
deriving DecidableEq, Repr

/-- The quote dictionary built by `_get_yfinance_data` /
`_get_alpha_vantage_data` (the wall-clock `timestamp` string, which no
claim touches, is not carried). -/
structure Quote where
  symbol : String
  currentPrice : ℚ
  change : ℚ
  changePercent : ℚ
  openPrice : ℚ
  high : ℚ
  low : ℚ
  volume : ℚ
  previousClose : ℚ
  source : String
deriving DecidableEq, Repr

/-- One entry of `StockDataManager.cache`: the stored payload together with
the wall-clock second at which `_update_cache` stored it. -/
structure CacheEntry (α : Type) where
  data : α
  timestamp : ℕ
deriving DecidableEq, Repr

/-- `StockDataManager._is_cache_valid` (stock_data.py lines 162-168).  The
Python code computes `(datetime.now() - cache_time).seconds`, i.e. the
seconds COMPONENT of the timedelta — the age modulo 86400 — and compares it
with `cache_duration = 60`. -/
def isCacheValid (cache : Option (CacheEntry α)) (now : ℕ) : Bool :=
  match cache with
  | none => false
  | some e => decide ((now - e.timestamp) % 86400 < 60)

/-- The core of `StockDataManager._get_yfinance_data` (stock_data.py lines
53-91) applied to an already-fetched daily history: `hist.iloc[-1]` is the
last bar, `hist.iloc[-2] if len(hist) > 1 else current_data` the previous
one, and the quote is assembled from their fields.  An empty history yields
`None`. -/
def getYfinanceData (symbol : String) (hist : List Bar) : Option Quote :=
  match hist.getLast? with
  | none => none
  | some current =>
    let previous := (hist.dropLast.getLast?).getD current
    let currentPrice := current.close
    let previousClose := previous.close
    let change := currentPrice - previousClose
    let changePercent := if previousClose ≠ 0 then (change / previousClose) * 100 else 0
    some {
      symbol := symbol
      currentPrice := currentPrice
      change := change
      changePercent := changePercent
      openPrice := current.openPrice
      high := current.high
      low := current.low
      volume := current.volume
      previousClose := previousClose
      source := "yfinance" }

/-- The parsed `Global Quote` payload of an Alpha Vantage response: the
numeric values of the fields `05. price`, `02. open`, `03. high`,
`04. low`, `06. volume`, `08. previous close`, `09. change` and
`10. change percent` (the latter after stripping the percent sign), exactly
as `_get_alpha_vantage_data` parses them. -/
structure AVGlobalQuote where
  price : ℚ
  openPrice : ℚ
  high : ℚ
  low : ℚ
  volume : ℚ
  previousClose : ℚ
  change : ℚ
  changePercent : ℚ
deriving DecidableEq, Repr

/-- The core of `StockDataManager._get_alpha_vantage_data` (stock_data.py
lines 93-139).  `resp = none` models an HTTP failure, a non-200 status, a
missing `Global Quote` key, or a raised exception — all of which make the
Python function return `None`.  Note that `change` and `change_percent`
are copied verbatim from the provider response, not recomputed. -/
def getAlphaVantageData (symbol : String) (resp : Option AVGlobalQuote) : Option Quote :=
  resp.map fun q =>
    { symbol := symbol
      currentPrice := q.price
      change := q.change
      changePercent := q.changePercent
      openPrice := q.openPrice
      high := q.high
      low := q.low
      volume := q.volume
      previousClose := q.previousClose
      source := "alpha_vantage" }

/-- The outcome of one `get_stock_data` call: the returned value, the cache
entry for the symbol's key afterwards, and whether any provider fetch was
attempted (false exactly when the call was answered from the cache). -/
structure FetchOutcome where
  result : Option Quote
  cacheAfter : Option (CacheEntry Quote)
  fetchAttempted : Bool
deriving DecidableEq, Repr

/-- `StockDataManager.get_stock_data` (stock_data.py lines 25-51) for one
symbol key.  `cache` is the entry stored under `f"{symbol}_current"` (if
any), `now` the current wall-clock second, `hist` the daily history the
yfinance fetch would deliver (`none` = the fetch raised), `av` the parsed
Alpha Vantage response (`none` = that fetch failed).  On a cache hit the
stored payload is returned and no fetch happens; otherwise yfinance is
tried first, Alpha Vantage second, and if both yield `None` the call
returns `None` with the cache left untouched. -/
def getStockData (symbol : String) (cache : Option (CacheEntry Quote)) (now : ℕ)
    (hist : Option (List Bar)) (av : Option AVGlobalQuote) : FetchOutcome :=
  if isCacheValid cache now then
    { result := cache.map (fun e => e.data), cacheAfter := cache, fetchAttempted := false }
  else
    match hist.bind (getYfinanceData symbol) with
    | some d =>
      { result := some d
        cacheAfter := some { data := d, timestamp := now }
        fetchAttempted := true }
    | none =>
      match getAlphaVantageData symbol av with
      | some d =>
        { result := some d
          cacheAfter := some { data := d, timestamp := now }
          fetchAttempted := true }
      | none => { result := none, cacheAfter := cache, fetchAttempted := true }

/-! ## Price monitor (`main.py`, `StockBot.price_monitor`) -/

/-- The in-memory `self.last_prices` dictionary: insertion-ordered
symbol/price pairs, as a Python dict is. -/
abbrev LastPrices := List (String × ℚ)

/-- Dictionary read `self.last_prices.get(symbol)`. -/
def lookupPrice (lp : LastPrices) (sym : String) : Option ℚ :=
  lp.lookup sym

/-- Python's built-in `abs` on a rational, written so that it reduces by
kernel computation (it agrees with Mathlib's `|·|`, see `absQ_eq_abs`). -/
def absQ (x : ℚ) : ℚ := if x < 0 then -x else x

/-- Dictionary write `self.last_prices[symbol] = price`: replaces the value
in place when the key exists, appends the pair otherwise. -/
def setPrice : LastPrices → String → ℚ → LastPrices
  | [], sym, p => [(sym, p)]
  | (k, v) :: rest, sym, p =>
    if k == sym then (k, p) :: rest else (k, v) :: setPrice rest sym p

/-- One `price_monitor` tick (main.py lines 85-111) over the tracked
symbols.  Each input is a symbol together with the price its
`get_stock_data` call produced (`none` = the call returned `None`, which
the loop skips with `continue`) and a flag telling whether the
`send_price_alert` call for it would succeed (`false` = that await raises).
The loop body mirrors the source: a falsy quote is skipped; otherwise, when
the stored baseline (defaulting to the current price) is nonzero and the
absolute percentage change reaches 2.0, the alert is sent BEFORE the
baseline is updated; an exception from the send is caught only by the
`try`/`except` wrapped around the whole loop, so it ends the tick with the
remaining symbols unprocessed and the current symbol's baseline not yet
updated.  The result is the final `last_prices` state and the list of
alerts (symbol, percentage change) actually emitted. -/
def priceMonitorTick : LastPrices → List (String × Option ℚ × Bool) →
    LastPrices × List (String × ℚ)
  | lp, [] => (lp, [])
  | lp, (_, none, _) :: rest => priceMonitorTick lp rest
  | lp, (sym, some p, sendOk) :: rest =>
    let last := (lookupPrice lp sym).getD p
    if last ≠ 0 ∧ 2 ≤ absQ (((p - last) / last) * 100) then
      if sendOk then
        let r := priceMonitorTick (setPrice lp sym p) rest
        (r.1, (sym, ((p - last) / last) * 100) :: r.2)
      else (lp, [])
    else priceMonitorTick (setPrice lp sym p) rest

/-! ## Persistence (`persistence.py`) -/

/-- Python's `str.upper()`: upper-case the string character by character
(which is what `String.toUpper` also does; this formulation reduces by
kernel computation). -/
def pyUpper (s : String) : String := String.mk (s.data.map Char.toUpper)

/-- `PersistenceManager.add_tracked_stock` (persistence.py lines 100-113)
acting on the stocks list read from disk.  The membership test uses the
symbol as passed, while the appended element is upper-cased — exactly as in
the source.  The boolean records whether `save_tracked_stocks` was invoked
(i.e. whether the list was written back to disk). -/
def addTrackedStock (stocks : List String) (symbol : String) : List String × Bool :=
  if symbol ∈ stocks then (stocks, false)
  else (stocks ++ [pyUpper symbol], true)

/-- `PersistenceManager.remove_tracked_stock` (persistence.py lines
115-128): `list.remove` deletes the first occurrence of the upper-cased
symbol when present.  The boolean records whether `save_tracked_stocks`
was invoked. -/
def removeTrackedStock (stocks : List String) (symbol : String) : List String × Bool :=
  if pyUpper symbol ∈ stocks then (stocks.erase (pyUpper symbol), true)
  else (stocks, false)

/-! ## Technical indicators (`ai_advisor.py`, `_calculate_technical_indicators`)

The indicator arithmetic runs on numpy floats, which never raise on
division by zero: they produce `inf`/`-inf`/`nan`.  `FVal` is the exact
surrogate for those values — finite values stay exact rationals. -/

/-- A numpy float: a finite rational, one of the two infinities, or NaN. -/
inductive FVal where
  | fin : ℚ → FVal
  | inf : FVal
  | ninf : FVal
  | nan : FVal
deriving DecidableEq, Repr

/-- Float negation. -/
def FVal.neg : FVal → FVal
  | fin a => fin (-a)
  | inf => ninf
  | ninf => inf
  | nan => nan

/-- Float addition (`inf + -inf = nan`, NaN propagates). -/
def FVal.add : FVal → FVal → FVal
  | nan, _ => nan
  | _, nan => nan
  | inf, ninf => nan
  | ninf, inf => nan
  | inf, _ => inf
  | _, inf => inf
  | ninf, _ => ninf
  | _, ninf => ninf
  | fin a, fin b => fin (a + b)

/-- Float subtraction. -/
def FVal.sub (x y : FVal) : FVal := FVal.add x (FVal.neg y)

/-- Float multiplication (`inf * 0 = nan`, NaN propagates). -/
def FVal.mul : FVal → FVal → FVal
  | nan, _ => nan
  | _, nan => nan
  | inf, inf => inf
  | inf, ninf => ninf
  | ninf, inf => ninf
  | ninf, ninf => inf
  | inf, fin b => if b = 0 then nan else if 0 < b then inf else ninf
  | fin a, inf => if a = 0 then nan else if 0 < a then inf else ninf
  | ninf, fin b => if b = 0 then nan else if 0 < b then ninf else inf
  | fin a, ninf => if a = 0 then nan else if 0 < a then ninf else inf
  | fin a, fin b => fin (a * b)

/-- Float division with numpy's zero-division behaviour: `a/0` is `inf`
for `a > 0`, `-inf` for `a < 0`, and `nan` for `0/0`; `a/inf = 0`;
`inf/inf = nan`; NaN propagates. -/
def FVal.div : FVal → FVal → FVal
  | nan, _ => nan
  | _, nan => nan
  | inf, inf => nan
  | inf, ninf => nan
  | ninf, inf => nan
  | ninf, ninf => nan
  | inf, fin b => if b < 0 then ninf else inf
  | ninf, fin b => if b < 0 then inf else ninf
  | fin _, inf => fin 0
  | fin _, ninf => fin 0
  | fin a, fin b =>
    if b = 0 then (if 0 < a then inf else if a < 0 then ninf else nan)
    else fin (a / b)

/-- Float `>` as Python evaluates it: every comparison with NaN is false. -/
def FVal.gtb : FVal → FVal → Bool
  | nan, _ => false
  | _, nan => false
  | inf, inf => false
  | inf, _ => true
  | _, inf => false
  | ninf, _ => false
  | fin _, ninf => true
  | fin a, fin b => decide (b < a)

/-- Float `<` as Python evaluates it. -/
def FVal.ltb (x y : FVal) : Bool := FVal.gtb y x

/-- The last-`k` window of a list: the set of values that
`rolling(window=k)` aggregates for the final row `iloc[-1]`. -/
def lastWindow (k : ℕ) (l : List α) : List α := l.drop (l.length - k)

/-- `series.rolling(window=k).mean().iloc[-1]` for a NaN-free series: the
mean of the last `k` values when at least `k` exist, NaN otherwise
(pandas's default `min_periods` equals the window size). -/
def rollingMeanLast (k : ℕ) (l : List ℚ) : FVal :=
  if k ≤ l.length then .fin ((lastWindow k l).sum / (k : ℚ)) else .nan

/-- `series.rolling(window=k).max().iloc[-1]` for a NaN-free series. -/
def rollingMaxLast (k : ℕ) (l : List ℚ) : FVal :=
  if k ≤ l.length then
    match lastWindow k l with
    | [] => .nan
    | x :: xs => .fin (xs.foldl max x)
  else .nan

/-- `series.rolling(window=k).min().iloc[-1]` for a NaN-free series. -/
def rollingMinLast (k : ℕ) (l : List ℚ) : FVal :=
  if k ≤ l.length then
    match lastWindow k l with
    | [] => .nan
    | x :: xs => .fin (xs.foldl min x)
  else .nan

/-- The one-bar deltas `Close.diff()` without its leading NaN:
`diffs closes` has one element fewer than `closes`. -/
def diffs (closes : List ℚ) : List ℚ :=
  List.zipWith (fun a b => a - b) closes.tail closes

/-- The gain series `delta.where(delta > 0, 0)`: the leading NaN of
`diff()` fails the `> 0` test and is replaced by `0`, so the result is
NaN-free with the same length as `closes`. -/
def gainsOf (closes : List ℚ) : List ℚ :=
  0 :: (diffs closes).map (fun d => if 0 < d then d else 0)

/-- The loss series `(-delta).where(delta < 0, 0)`, NaN-free like
`gainsOf`. -/
def lossesOf (closes : List ℚ) : List ℚ :=
  0 :: (diffs closes).map (fun d => if d < 0 then -d else 0)

/-- The RSI value `100 - (100 / (1 + rs))` with
`rs = gain.rolling(14).mean() / loss.rolling(14).mean()` at `iloc[-1]`,
computed in float semantics (an all-gain window makes `rs = inf` and the
result `100`; a flat window makes `rs = nan` and the result NaN). -/
def rsiOf (closes : List ℚ) : FVal :=
  let avgGain := rollingMeanLast 14 (gainsOf closes)
  let avgLoss := rollingMeanLast 14 (lossesOf closes)
  let rs := FVal.div avgGain avgLoss
  FVal.sub (.fin 100) (FVal.div (.fin 100) (FVal.add (.fin 1) rs))

/-- `Close.pct_change()`: a leading NaN followed by
`close_i / close_pred - 1` in float semantics. -/
def pctChanges (closes : List ℚ) : List FVal :=
  FVal.nan ::
    List.zipWith (fun a b => FVal.sub (FVal.div (.fin a) (.fin b)) (.fin 1))
      closes.tail closes

/-- Extracts the rational values of a list of floats, `none` as soon as a
non-finite value occurs. -/
def finPart : List FVal → Option (List ℚ)
  | [] => some []
  | .fin q :: rest => (finPart rest).map (fun l => q :: l)
  | _ => none

/-- The sample variance (`ddof = 1`, as pandas `std` uses) of a list of
rationals. -/
def sampleVar (l : List ℚ) : ℚ :=
  let n : ℚ := l.length
  let m := l.sum / n
  (l.map (fun x => (x - m) ^ 2)).sum / (n - 1)

/-- `series.rolling(window=k).std().iloc[-1]`: the square root of the
sample variance of the last `k` values when `k` of them exist and all are
finite, NaN otherwise.  The square root itself is irrational, so it is
abstracted as the parameter `sqrtFn`; no claim depends on its values. -/
def rollingStdLast (sqrtFn : ℚ → ℚ) (k : ℕ) (l : List FVal) : FVal :=
  if k ≤ l.length then
    match finPart (lastWindow k l) with
    | some w => .fin (sqrtFn (sampleVar w))
    | none => .nan
  else .nan

/-- The indicators dictionary built by `_calculate_technical_indicators`:
`none` means the key is absent from the returned dict, `some v` that it is
present with float value `v` (string-valued signal keys carry a
`String`). -/
structure Indicators where
  ma20 : Option FVal := none
  ma20_trend : Option String := none
  ma10 : Option FVal := none
  ma10_trend : Option String := none
  ma5 : Option FVal := none
  ma5_trend : Option String := none
  rsi : Option FVal := none
  rsi_signal : Option String := none
  volume_ratio : Option FVal := none
  volume_signal : Option String := none
  momentum_5d : Option FVal := none
  volatility : Option FVal := none
  resistance_level : Option FVal := none
  support_level : Option FVal := none
deriving DecidableEq, Repr

/-- `AIAdvisor._calculate_technical_indicators` (ai_advisor.py lines
82-145).  The moving averages, RSI and momentum are guarded by explicit
length tests in the source and are absent below them; the volume ratio,
volatility and support/resistance lines run unconditionally, so their keys
are always present, merely NaN-valued when their rolling window is not yet
full.  An empty frame raises `IndexError` at the `iloc[-1]` of the volume
block, which the surrounding `try`/`except` turns into the empty dict; no
other operation can raise (numpy float arithmetic is total).  The dead
`else 50.0` alternative of the `rsi` assignment is unreachable (the series
is never empty there) and is not modelled. -/
def calculateTechnicalIndicators (sqrtFn : ℚ → ℚ) (data : List Bar) : Indicators :=
  if data.isEmpty then {}
  else
    let n := data.length
    let closes := data.map Bar.close
    let lastClose := (closes.getLast?).getD 0
    let ma20v := rollingMeanLast 20 closes
    let ma10v := rollingMeanLast 10 closes
    let ma5v := rollingMeanLast 5 closes
    let rsiv := rsiOf closes
    let volumes := data.map Bar.volume
    let curVolume := (volumes.getLast?).getD 0
    let vr := FVal.div (.fin curVolume) (rollingMeanLast 10 volumes)
    { ma20 := if 20 ≤ n then some ma20v else none
      ma20_trend :=
        if 20 ≤ n then
          some (if FVal.gtb (.fin lastClose) ma20v then "bullish" else "bearish")
        else none
      ma10 := if 10 ≤ n then some ma10v else none
      ma10_trend :=
        if 10 ≤ n then
          some (if FVal.gtb (.fin lastClose) ma10v then "bullish" else "bearish")
        else none
      ma5 := if 5 ≤ n then some ma5v else none
      ma5_trend :=
        if 5 ≤ n then
          some (if FVal.gtb (.fin lastClose) ma5v then "bullish" else "bearish")
        else none
      rsi := if 14 ≤ n then some rsiv else none
      rsi_signal :=
        if 14 ≤ n then
          some (if FVal.gtb rsiv (.fin 70) then "overbought"
                else if FVal.ltb rsiv (.fin 30) then "oversold"
                else "neutral")
        else none
      volume_ratio := some vr
      volume_signal := some (if FVal.gtb vr (.fin (3 / 2)) then "high" else "normal")
      momentum_5d :=
        if 5 ≤ n then
          some (FVal.mul
            (FVal.div (.fin (lastClose - (closes[n - 5]?).getD 0))
              (.fin ((closes[n - 5]?).getD 0)))
            (.fin 100))
        else none
      volatility := some (FVal.mul (rollingStdLast sqrtFn 10 (pctChanges closes)) (.fin 100))
      resistance_level := some (rollingMaxLast 20 (data.map Bar.high))
      support_level := some (rollingMinLast 20 (data.map Bar.low)) }

/-! ## Concrete inputs used by closed evaluations -/

/-- A bar whose four prices all equal `c`, with volume 10. -/
def flatBar (c : ℚ) : Bar :=
  { openPrice := c, high := c, low := c, close := c, volume := 10 }

/-- A sample cached quote payload. -/
def sampleQuote : Quote :=
  { symbol := "AAPL", currentPrice := 1, change := 0, changePercent := 0,
    openPrice := 1, high := 1, low := 1, volume := 1, previousClose := 1,
    source := "yfinance" }

/-- A twelve-bar daily history with closes 1..12. -/
def twelveBars : List Bar :=
  [flatBar 1, flatBar 2, flatBar 3, flatBar 4, flatBar 5, flatBar 6,
   flatBar 7, flatBar 8, flatBar 9, flatBar 10, flatBar 11, flatBar 12]

/-- An eight-bar daily history with closes 1..8. -/
def eightBars : List Bar :=
  [flatBar 1, flatBar 2, flatBar 3, flatBar 4, flatBar 5, flatBar 6,
   flatBar 7, flatBar 8]

/-- A fifteen-bar daily history with strictly increasing closes 1..15. -/
def fifteenBars : List Bar :=
  [flatBar 1, flatBar 2, flatBar 3, flatBar 4, flatBar 5, flatBar 6,
   flatBar 7, flatBar 8, flatBar 9, flatBar 10, flatBar 11, flatBar 12,
   flatBar 13, flatBar 14, flatBar 15]

/-- An Alpha Vantage `Global Quote` whose reported `09. change` (7) does not
match `price - previous close` (10 - 5 = 5). -/
def avInconsistent : AVGlobalQuote :=
  { price := 10, openPrice := 9, high := 11, low := 8, volume := 1000,
    previousClose := 5, change := 7, changePercent := 3 }

/-- The quote `_get_alpha_vantage_data` builds from `avInconsistent`. -/
def fallbackQuoteOfInconsistent : Quote :=
  { symbol := "AAPL", currentPrice := 10, change := 7, changePercent := 3,
    openPrice := 9, high := 11, low := 8, volume := 1000, previousClose := 5,
    source := "alpha_vantage" }

/-! ## Helper lemmas -/

/-- Mathlib's absolute value and the embedded Python `abs` agree. -/
theorem absQ_eq_abs (x : ℚ) : absQ x = |x| := by
  rcases lt_or_le x 0 with h | h
  · rw [absQ, if_pos h, abs_of_neg h]
  · rw [absQ, if_neg (not_lt.mpr h), abs_of_nonneg h]

/-- Writing a price and reading the same symbol back yields that price. -/
theorem lookupPrice_setPrice (lp : LastPrices) (sym : String) (p : ℚ) :
    lookupPrice (setPrice lp sym p) sym = some p := by
  induction lp with
  | nil => simp [setPrice, lookupPrice, List.lookup]
  | cons head tail ih =>
    obtain ⟨k, v⟩ := head
    by_cases hk : k = sym
    · have hbeq : (k == sym) = true := by simp [hk]
      have hbeq2 : (sym == k) = true := by simp [hk]
      simp [setPrice, lookupPrice, List.lookup, hbeq, hbeq2]
    · have hk2 : ¬ sym = k := fun e => hk e.symm
      have hbeq : (k == sym) = false := by simp [hk]
      have hbeq2 : (sym == k) = false := by simp [hk2]
      simpa [setPrice, lookupPrice, List.lookup, hbeq, hbeq2] using ih

/-- A list of zeros sums to zero. -/
theorem sum_eq_zero_of_all_zero {l : List ℚ} (h : ∀ x ∈ l, x = 0) : l.sum = 0 := by
  induction l with
  | nil => simp
  | cons a t ih =>
    rw [List.sum_cons, h a (by simp), ih (fun x hx => h x (by simp [hx]))]
    simp

/-- Strict monotonicity of the closes makes every one-bar delta positive. -/
theorem diffs_pos {closes : List ℚ} (h : List.Chain' (· < ·) closes) :
    ∀ d ∈ diffs closes, 0 < d := by
  induction closes with
  | nil => simp [diffs]
  | cons a t ih =>
    cases t with
    | nil => simp [diffs]
    | cons b u =>
      have hab : a < b := (List.chain'_cons.mp h).1
      have hrest := ih (List.chain'_cons.mp h).2
      intro d hd
      simp only [diffs, List.tail_cons, List.zipWith_cons_cons, List.mem_cons] at hd
      rcases hd with hd | hd
      · simpa [hd] using sub_pos.mpr hab
      · exact hrest d (by simpa [diffs] using hd)

/-- With every one-bar delta positive, every entry of the loss series is
zero. -/
theorem lossesOf_all_zero {closes : List ℚ} (hpos : ∀ d ∈ diffs closes, 0 < d) :
    ∀ x ∈ lossesOf closes, x = 0 := by
  intro x hx
  simp only [lossesOf, List.mem_cons, List.mem_map] at hx
  rcases hx with rfl | ⟨d, hd, rfl⟩
  · rfl
  · rw [if_neg (lt_asymm (hpos d hd))]

/-- For a strictly increasing close series of at least 15 bars, the RSI
computation produces exactly the float 100 (the average loss is zero, the
average gain positive, `rs` is `inf`, and `100 - 100/(1 + inf) = 100`). -/
theorem rsiOf_eq_hundred {closes : List ℚ} (h15 : 15 ≤ closes.length)
    (hmono : List.Chain' (· < ·) closes) : rsiOf closes = FVal.fin 100 := by
  have hpos := diffs_pos hmono
  have hdiffs_len : (diffs closes).length = closes.length - 1 := by
    simp only [diffs, List.length_zipWith, List.length_tail]
    omega
  have hg_len : (gainsOf closes).length = closes.length := by
    simp only [gainsOf, List.length_cons, List.length_map, hdiffs_len]
    omega
  have hl_len : (lossesOf closes).length = closes.length := by
    simp only [lossesOf, List.length_cons, List.length_map, hdiffs_len]
    omega
  have hzero : ∀ x ∈ lastWindow 14 (lossesOf closes), x = 0 := fun x hx =>
    lossesOf_all_zero hpos x (List.mem_of_mem_drop hx)
  have havgLoss : rollingMeanLast 14 (lossesOf closes) = .fin 0 := by
    rw [rollingMeanLast, if_pos (by omega : 14 ≤ (lossesOf closes).length),
      sum_eq_zero_of_all_zero hzero]
    norm_num
  have hwin : lastWindow 14 (gainsOf closes) =
      ((diffs closes).map (fun d => if 0 < d then d else 0)).drop
        (closes.length - 15) := by
    have hstep : (gainsOf closes).length - 14 = (closes.length - 15) + 1 := by omega
    rw [lastWindow, hstep, gainsOf, List.drop_succ_cons]
  have hwlen : (lastWindow 14 (gainsOf closes)).length = 14 := by
    simp only [lastWindow, List.length_drop]
    omega
  have hwpos : ∀ x ∈ lastWindow 14 (gainsOf closes), 0 < x := by
    rw [hwin]
    intro x hx
    have hx2 := List.mem_of_mem_drop hx
    simp only [List.mem_map] at hx2
    obtain ⟨d, hd, rfl⟩ := hx2
    rw [if_pos (hpos d hd)]
    exact hpos d hd
  have hwne : lastWindow 14 (gainsOf closes) ≠ [] := by
    intro e
    rw [e] at hwlen
    simp at hwlen
  have hsum : 0 < (lastWindow 14 (gainsOf closes)).sum :=
    List.sum_pos _ hwpos hwne
  have hSpos : 0 < (lastWindow 14 (gainsOf closes)).sum / (14 : ℚ) := by positivity
  have havgGain : rollingMeanLast 14 (gainsOf closes) =
      .fin ((lastWindow 14 (gainsOf closes)).sum / (14 : ℚ)) := by
    rw [rollingMeanLast, if_pos (by omega : 14 ≤ (gainsOf closes).length)]
    norm_num
  simp only [rsiOf, havgGain, havgLoss]
  have hrs : FVal.div (.fin ((lastWindow 14 (gainsOf closes)).sum / (14 : ℚ)))
      (.fin 0) = .inf := by
    simp [FVal.div, hSpos]
  rw [hrs]
  simp [FVal.add, FVal.div, FVal.sub, FVal.neg]

/-! ## Claim theorems -/

/-- C1: the spec demands that a cache entry whose age is at least
`ttl_seconds = 60` is never served.  The code computes the age with
`timedelta.seconds` — the seconds component modulo one day — so an entry
aged exactly 86400 seconds (one day, far past the 60-second TTL) is still
reported valid and served without any provider fetch.  This closed
evaluation exhibits the divergence. -/
theorem c1_stale_entry_served_after_ttl :
    getStockData "AAPL" (some { data := sampleQuote, timestamp := 0 }) 86400
        (some [flatBar 5, flatBar 7]) none =
      { result := some sampleQuote,
        cacheAfter := some { data := sampleQuote, timestamp := 0 },
        fetchAttempted := false } ∧
    60 ≤ 86400 - 0 := by
  exact ⟨by decide, by decide⟩

/-- C2: on a monitor tick, a symbol whose quote fetch succeeds raises an
alert exactly when the absolute percentage change of the price against the
in-memory baseline (which defaults to the current price when absent, so a
first observation never alerts) is at least the 2.0 threshold, and the
baseline is set to the current price whether or not the alert fired. -/
theorem c2_alert_iff_threshold (lp : LastPrices) (sym : String) (p : ℚ)
    (hb : (lookupPrice lp sym).getD p ≠ 0) :
    ((priceMonitorTick lp [(sym, some p, true)]).2 ≠ [] ↔
      2 ≤ |((p - (lookupPrice lp sym).getD p) / (lookupPrice lp sym).getD p) * 100|) ∧
    (lookupPrice lp sym = none → (priceMonitorTick lp [(sym, some p, true)]).2 = []) ∧
    lookupPrice (priceMonitorTick lp [(sym, some p, true)]).1 sym = some p := by
  refine ⟨?_, ?_, ?_⟩
  · by_cases h2 : 2 ≤ |((p - (lookupPrice lp sym).getD p) / (lookupPrice lp sym).getD p) * 100|
    · simp [priceMonitorTick, absQ_eq_abs, hb, h2]
    · simp [priceMonitorTick, absQ_eq_abs, hb, h2]
  · intro hnone
    simp [priceMonitorTick, hnone, absQ, show ¬((2 : ℚ) ≤ 0) by norm_num]
  · by_cases h2 : 2 ≤ |((p - (lookupPrice lp sym).getD p) / (lookupPrice lp sym).getD p) * 100|
    · simp [priceMonitorTick, absQ_eq_abs, hb, h2, lookupPrice_setPrice]
    · simp [priceMonitorTick, absQ_eq_abs, hb, h2, lookupPrice_setPrice]

/-- C2 witness: baseline 100, new price 103 — the 3% move alerts and the
baseline becomes 103. -/
theorem c2_alert_iff_threshold_witness :
    (lookupPrice [("AAPL", (100 : ℚ))] "AAPL").getD 103 ≠ 0 ∧
    (((priceMonitorTick [("AAPL", (100 : ℚ))] [("AAPL", some 103, true)]).2 ≠ [] ↔
      2 ≤ |((103 - (lookupPrice [("AAPL", (100 : ℚ))] "AAPL").getD 103) /
        (lookupPrice [("AAPL", (100 : ℚ))] "AAPL").getD 103) * 100|) ∧
    (lookupPrice [("AAPL", (100 : ℚ))] "AAPL" = none →
      (priceMonitorTick [("AAPL", (100 : ℚ))] [("AAPL", some 103, true)]).2 = []) ∧
    lookupPrice (priceMonitorTick [("AAPL", (100 : ℚ))] [("AAPL", some 103, true)]).1
      "AAPL" = some 103) :=
  ⟨by decide, c2_alert_iff_threshold [("AAPL", (100 : ℚ))] "AAPL" 103 (by decide)⟩

/-- C3: with the cache cold, `get_stock_data` consults the primary
(yfinance) provider first: a non-empty history yields a quote built from
the two most recent bars (current = last bar's close, previous =
second-to-last bar's close; previous = current when only one bar exists,
giving zero change), tagged with the yfinance source and independent of
the fallback response; the fallback is consulted exactly when the primary
raised (`none`) or returned an empty history, its quote tagged
alpha_vantage; and when both fail the call returns `none` instead of
raising. -/
theorem c3_provider_order (sym : String) (cache : Option (CacheEntry Quote)) (now : ℕ)
    (hinv : isCacheValid cache now = false) :
    (∀ (l : List Bar) (b2 b1 : Bar) (av : Option AVGlobalQuote),
      getStockData sym cache now (some (l ++ [b2, b1])) av =
        getStockData sym cache now (some (l ++ [b2, b1])) none ∧
      ∃ q : Quote,
        (getStockData sym cache now (some (l ++ [b2, b1])) av).result = some q ∧
        q.source = "yfinance" ∧ q.currentPrice = b1.close ∧ q.previousClose = b2.close ∧
        q.change = b1.close - b2.close) ∧
    (∀ (b : Bar) (av : Option AVGlobalQuote),
      ∃ q : Quote,
        (getStockData sym cache now (some [b]) av).result = some q ∧
        q.source = "yfinance" ∧ q.currentPrice = b.close ∧ q.previousClose = b.close ∧
        q.change = 0) ∧
    (∀ av, (getStockData sym cache now none av).result = getAlphaVantageData sym av) ∧
    (∀ av, (getStockData sym cache now (some []) av).result = getAlphaVantageData sym av) ∧
    (∀ r, (getAlphaVantageData sym (some r)).map Quote.source = some "alpha_vantage") ∧
    (getStockData sym cache now none none).result = none := by
  have key : ∀ (l : List Bar) (b2 b1 : Bar),
      getYfinanceData sym (l ++ [b2, b1]) =
        some { symbol := sym, currentPrice := b1.close,
               change := b1.close - b2.close,
               changePercent :=
                 if b2.close ≠ 0 then ((b1.close - b2.close) / b2.close) * 100 else 0,
               openPrice := b1.openPrice, high := b1.high, low := b1.low,
               volume := b1.volume, previousClose := b2.close,
               source := "yfinance" } := by
    intro l b2 b1
    have h1 : (l ++ [b2, b1]) = (l ++ [b2]) ++ [b1] := by simp
    have hlast : (l ++ [b2, b1]).getLast? = some b1 := by
      rw [h1]; exact List.getLast?_concat _
    have hdrop : (l ++ [b2, b1]).dropLast = l ++ [b2] := by
      rw [h1]; exact List.dropLast_concat
    simp [getYfinanceData, hlast, hdrop, List.getLast?_concat]
  refine ⟨?_, ?_, ?_, ?_, ?_, ?_⟩
  · intro l b2 b1 av
    have hres : (getStockData sym cache now (some (l ++ [b2, b1])) av).result =
        some { symbol := sym, currentPrice := b1.close,
               change := b1.close - b2.close,
               changePercent :=
                 if b2.close ≠ 0 then ((b1.close - b2.close) / b2.close) * 100 else 0,
               openPrice := b1.openPrice, high := b1.high, low := b1.low,
               volume := b1.volume, previousClose := b2.close,
               source := "yfinance" } := by
      simp [getStockData, hinv, key l b2 b1]
    exact ⟨by simp [getStockData, hinv, key l b2 b1], _, hres, rfl, rfl, rfl, rfl⟩
  · intro b av
    have hone : getYfinanceData sym [b] =
        some { symbol := sym, currentPrice := b.close,
               change := b.close - b.close,
               changePercent :=
                 if b.close ≠ 0 then ((b.close - b.close) / b.close) * 100 else 0,
               openPrice := b.openPrice, high := b.high, low := b.low,
               volume := b.volume, previousClose := b.close,
               source := "yfinance" } := by
      simp [getYfinanceData]
    have hres : (getStockData sym cache now (some [b]) av).result =
        some { symbol := sym, currentPrice := b.close,
               change := b.close - b.close,
               changePercent :=
                 if b.close ≠ 0 then ((b.close - b.close) / b.close) * 100 else 0,
               openPrice := b.openPrice, high := b.high, low := b.low,
               volume := b.volume, previousClose := b.close,
               source := "yfinance" } := by
      simp [getStockData, hinv, hone]
    exact ⟨_, hres, rfl, rfl, rfl, sub_self _⟩
  · intro av
    rcases hav : getAlphaVantageData sym av with _ | d <;>
      simp [getStockData, hinv, hav]
  · intro av
    have hempty : getYfinanceData sym ([] : List Bar) = none := rfl
    rcases hav : getAlphaVantageData sym av with _ | d <;>
      simp [getStockData, hinv, hempty, hav]
  · intro r
    rfl
  · simp [getStockData, getAlphaVantageData, hinv]

/-- C3 witness: with an empty cache at second 0 (a cache miss) and both
providers failing, the call yields `None`. -/
theorem c3_provider_order_witness :
    isCacheValid (none : Option (CacheEntry Quote)) 0 = false ∧
    (getStockData "AAPL" none 0 none none).result = none :=
  ⟨rfl, (c3_provider_order "AAPL" none 0 rfl).2.2.2.2.2⟩

/-- C4 counterexample: on a 12-bar series the support/resistance keys are
NOT omitted — the rolling min/max lines run unconditionally, so both keys
are present carrying NaN; likewise the volume-ratio key is present (as NaN)
on an 8-bar series, refuting the claim that these indicators are absent
below their minimum lengths. -/
theorem c4_unguarded_keys_present :
    twelveBars.length = 12 ∧
    (calculateTechnicalIndicators (fun _ => 0) twelveBars).support_level = some FVal.nan ∧
    (calculateTechnicalIndicators (fun _ => 0) twelveBars).resistance_level = some FVal.nan ∧
    eightBars.length = 8 ∧
    (calculateTechnicalIndicators (fun _ => 0) eightBars).volume_ratio = some FVal.nan := by
  refine ⟨by decide, by decide, by decide, by decide, by decide⟩

/-- C4 as amended: the length-guarded indicators behave as claimed on every
12-bar series — MA(5) and MA(10) are present, MA(20), its trend, RSI and
its signal are absent — but the unguarded ones do not: the
support/resistance keys are present with the NaN produced by their unfull
20-bar windows, and the volume-ratio key is always present, carrying NaN
(not absent) whenever the series is shorter than 10 bars. -/
theorem c4_indicator_presence (sqrtFn : ℚ → ℚ) (data : List Bar)
    (h : data.length = 12) :
    (calculateTechnicalIndicators sqrtFn data).ma5.isSome = true ∧
    (calculateTechnicalIndicators sqrtFn data).ma10.isSome = true ∧
    (calculateTechnicalIndicators sqrtFn data).ma20 = none ∧
    (calculateTechnicalIndicators sqrtFn data).ma20_trend = none ∧
    (calculateTechnicalIndicators sqrtFn data).rsi = none ∧
    (calculateTechnicalIndicators sqrtFn data).rsi_signal = none ∧
    (calculateTechnicalIndicators sqrtFn data).support_level = some FVal.nan ∧
    (calculateTechnicalIndicators sqrtFn data).resistance_level = some FVal.nan ∧
    (calculateTechnicalIndicators sqrtFn data).volume_ratio.isSome = true ∧
    (∀ d2 : List Bar, d2 ≠ [] → d2.length < 10 →
      (calculateTechnicalIndicators sqrtFn d2).volume_ratio = some FVal.nan) := by
  cases data with
  | nil => simp at h
  | cons b t =>
    have ht : t.length = 11 := by
      have : (b :: t).length = 12 := h
      simpa using this
    refine ⟨?_, ?_, ?_, ?_, ?_, ?_, ?_, ?_, ?_, ?_⟩
    · simp [calculateTechnicalIndicators, ht]
    · simp [calculateTechnicalIndicators, ht]
    · simp [calculateTechnicalIndicators, ht]
    · simp [calculateTechnicalIndicators, ht]
    · simp [calculateTechnicalIndicators, ht]
    · simp [calculateTechnicalIndicators, ht]
    · simp [calculateTechnicalIndicators, rollingMinLast, lastWindow,
        List.length_map, ht]
    · simp [calculateTechnicalIndicators, rollingMaxLast, lastWindow,
        List.length_map, ht]
    · simp [calculateTechnicalIndicators]
    · intro d2 hne hlt
      cases d2 with
      | nil => exact absurd rfl hne
      | cons c u =>
        have hu : u.length + 1 < 10 := by simpa using hlt
        have hmean : rollingMeanLast 10 (c.volume :: u.map Bar.volume) = FVal.nan := by
          rw [rollingMeanLast, if_neg]
          simp only [List.length_cons, List.length_map]
          omega
        simp [calculateTechnicalIndicators, hmean, FVal.div]

/-- C4 witness: the amended theorem evaluated on the concrete 12-bar
series. -/
theorem c4_indicator_presence_witness :
    twelveBars.length = 12 ∧
    (calculateTechnicalIndicators (fun _ => 0) twelveBars).ma5.isSome = true ∧
    (calculateTechnicalIndicators (fun _ => 0) twelveBars).ma10.isSome = true ∧
    (calculateTechnicalIndicators (fun _ => 0) twelveBars).ma20 = none ∧
    (calculateTechnicalIndicators (fun _ => 0) twelveBars).rsi = none := by
  have hp := c4_indicator_presence (fun _ => 0) twelveBars (by decide)
  exact ⟨by decide, hp.1, hp.2.1, hp.2.2.1, hp.2.2.2.2.1⟩

/-- C5 counterexample: with tracked symbols A then B, both fetches
succeeding, an exception raised while sending A's alert ends the whole tick
(the `try`/`except` wraps the loop), so B is never evaluated and neither
baseline is updated — refuting the claim that any per-symbol error leaves
the later symbols unaffected. -/
theorem c5_tick_aborted_by_send_error :
    priceMonitorTick [("A", 100), ("B", 100)]
        [("A", some 110, false), ("B", some 105, true)] =
      ([("A", 100), ("B", 100)], []) ∧
    lookupPrice (priceMonitorTick [("A", 100), ("B", 100)]
        [("A", some 110, false), ("B", some 105, true)]).1 "B" ≠ some 105 := by
  have h : priceMonitorTick [("A", 100), ("B", 100)]
      [("A", some 110, false), ("B", some 105, true)] =
      ([("A", 100), ("B", 100)], []) := by
    norm_num [priceMonitorTick, lookupPrice, List.lookup, absQ]
  refine ⟨h, ?_⟩
  rw [h]
  decide

/-- C5 as amended: a FAILED QUOTE FETCH for one symbol is isolated — the
loop skips it with `continue`, and the tick proceeds on the remaining
symbols exactly as if the symbol were absent.  (An exception raised while
handling a symbol, by contrast, aborts the rest of the tick, though the
tick-level handler keeps the scheduler alive; see the counterexample.) -/
theorem c5_fetch_failure_isolated (lp : LastPrices) (sym : String) (b : Bool)
    (rest : List (String × Option ℚ × Bool)) :
    priceMonitorTick lp ((sym, none, b) :: rest) = priceMonitorTick lp rest := rfl

/-- C6: a call that finds a cache entry younger than the 60-second TTL
returns the cached payload, leaves the cache unchanged and attempts no
provider fetch; consequently two calls one second apart, the first of which
fetched successfully, perform exactly one fetch between them. -/
theorem c6_cache_hit_within_ttl (sym : String) (e : CacheEntry Quote) (now : ℕ)
    (h1 : e.timestamp ≤ now) (h2 : now - e.timestamp < 60) :
    (∀ hist av, getStockData sym (some e) now hist av =
      { result := some e.data, cacheAfter := some e, fetchAttempted := false }) ∧
    (∀ (t : ℕ) (hist : Option (List Bar)) (av : Option AVGlobalQuote) (q : Quote),
      (getStockData sym none t hist av).result = some q →
      (getStockData sym none t hist av).fetchAttempted = true ∧
      ∀ hist2 av2,
        getStockData sym (getStockData sym none t hist av).cacheAfter (t + 1) hist2 av2 =
          { result := some q, cacheAfter := some { data := q, timestamp := t },
            fetchAttempted := false }) := by
  have hmod : (now - e.timestamp) % 86400 = now - e.timestamp :=
    Nat.mod_eq_of_lt (lt_trans h2 (by norm_num))
  constructor
  · intro hist av
    simp [getStockData, isCacheValid, hmod, h2]
  · intro t hist av q hq
    have hcold : isCacheValid (none : Option (CacheEntry Quote)) t = false := rfl
    constructor
    · unfold getStockData
      rw [hcold]
      simp only [Bool.false_eq_true, if_false]
      rcases hyf : hist.bind (getYfinanceData sym) with _ | d
      · rcases hav : getAlphaVantageData sym av with _ | d2 <;> simp [hyf, hav]
      · simp [hyf]
    · intro hist2 av2
      have hafter : (getStockData sym none t hist av).cacheAfter =
          some { data := q, timestamp := t } := by
        unfold getStockData at hq ⊢
        rw [hcold] at hq ⊢
        simp only [Bool.false_eq_true, if_false] at hq ⊢
        rcases hyf : hist.bind (getYfinanceData sym) with _ | d
        · rcases hav : getAlphaVantageData sym av with _ | d2
          · simp [hyf, hav] at hq
          · simp [hyf, hav] at hq ⊢
            simp [hq]
        · simp [hyf] at hq ⊢
          simp [hq]
      rw [hafter]
      have hmod1 : ((t + 1) - t) % 86400 = 1 := by simp
      simp [getStockData, isCacheValid, hmod1]

/-- C6 witness: an entry stored at second 0 and read at second 59 is served
from the cache with no fetch attempted. -/
theorem c6_cache_hit_within_ttl_witness :
    (({ data := sampleQuote, timestamp := 0 } : CacheEntry Quote).timestamp ≤ 59) ∧
    59 - ({ data := sampleQuote, timestamp := 0 } : CacheEntry Quote).timestamp < 60 ∧
    getStockData "AAPL" (some { data := sampleQuote, timestamp := 0 }) 59 none none =
      { result := some sampleQuote,
        cacheAfter := some { data := sampleQuote, timestamp := 0 },
        fetchAttempted := false } :=
  ⟨by decide, by decide,
    (c6_cache_hit_within_ttl "AAPL" { data := sampleQuote, timestamp := 0 } 59
      (by decide) (by decide)).1 none none⟩

/-- C7 counterexample: the fallback path copies the provider-reported
`09. change` into the quote verbatim, so an internally inconsistent
Alpha Vantage response (price 10, previous close 5, reported change 7)
reaches the caller with `change ≠ current_price - previous_close`,
refuting the claim that the invariant holds on the fallback path. -/
theorem c7_fallback_breaks_invariant :
    (getStockData "AAPL" none 0 none (some avInconsistent)).result =
      some fallbackQuoteOfInconsistent ∧
    fallbackQuoteOfInconsistent.change ≠
      fallbackQuoteOfInconsistent.currentPrice - fallbackQuoteOfInconsistent.previousClose := by
  constructor
  · rfl
  · norm_num [fallbackQuoteOfInconsistent]

/-- C7 as amended: quotes built on the primary (yfinance) path satisfy the
invariant exactly — `change = current_price - previous_close`, and
`change_percent` is `change / previous_close * 100` for a nonzero previous
close and `0` otherwise; quotes from the fallback path instead carry the
provider-reported `change` and `change percent` fields verbatim, so for
them the invariant holds only when the response itself is consistent. -/
theorem c7_change_invariant :
    (∀ (sym : String) (bars : List Bar) (q : Quote),
      getYfinanceData sym bars = some q →
      q.change = q.currentPrice - q.previousClose ∧
      (q.previousClose ≠ 0 →
        q.changePercent = (q.currentPrice - q.previousClose) / q.previousClose * 100) ∧
      (q.previousClose = 0 → q.changePercent = 0)) ∧
    (∀ (sym : String) (r : AVGlobalQuote) (q : Quote),
      getAlphaVantageData sym (some r) = some q →
      q.currentPrice = r.price ∧ q.previousClose = r.previousClose ∧
      q.change = r.change ∧ q.changePercent = r.changePercent) := by
  constructor
  · intro sym bars q hq
    unfold getYfinanceData at hq
    rcases hl : bars.getLast? with _ | current
    · rw [hl] at hq; simp at hq
    · rw [hl] at hq
      simp only [Option.some.injEq] at hq
      subst hq
      refine ⟨rfl, ?_, ?_⟩
      · intro hne
        by_cases hz : ((bars.dropLast.getLast?).getD current).close = 0
        · exact absurd hz hne
        · simp [hz]
      · intro h0
        simp only at h0
        simp [h0]
  · intro sym r q hq
    simp only [getAlphaVantageData, Option.map_some', Option.some.injEq] at hq
    subst hq
    exact ⟨rfl, rfl, rfl, rfl⟩

/-- C7 witness: the amended theorem applied to the concrete inconsistent
fallback response — its quote copies the reported fields. -/
theorem c7_change_invariant_witness :
    getAlphaVantageData "AAPL" (some avInconsistent) = some fallbackQuoteOfInconsistent ∧
    fallbackQuoteOfInconsistent.currentPrice = avInconsistent.price ∧
    fallbackQuoteOfInconsistent.change = avInconsistent.change :=
  ⟨rfl,
    (c7_change_invariant.2 "AAPL" avInconsistent fallbackQuoteOfInconsistent rfl).1,
    (c7_change_invariant.2 "AAPL" avInconsistent fallbackQuoteOfInconsistent rfl).2.2.1⟩

/-- C8: on every strictly increasing close series of at least 15 bars, the
indicator computation is well-defined with no division error — in float
semantics the zero average loss makes `rs = inf` — and the resulting RSI is
exactly 100, classified overbought. -/
theorem c8_rsi_all_gains (sqrtFn : ℚ → ℚ) (data : List Bar)
    (hlen : 15 ≤ data.length)
    (hmono : List.Chain' (· < ·) (data.map Bar.close)) :
    (calculateTechnicalIndicators sqrtFn data).rsi = some (FVal.fin 100) ∧
    (calculateTechnicalIndicators sqrtFn data).rsi_signal = some "overbought" := by
  have hr : rsiOf (data.map Bar.close) = FVal.fin 100 :=
    rsiOf_eq_hundred (by rw [List.length_map]; exact hlen) hmono
  cases data with
  | nil => simp at hlen
  | cons b t =>
    have h13 : 13 ≤ t.length := by
      have h15 : 15 ≤ t.length + 1 := by simpa using hlen
      omega
    have hr2 : rsiOf (b.close :: t.map Bar.close) = FVal.fin 100 := by
      simpa using hr
    have hgtb : FVal.gtb (FVal.fin 100) (FVal.fin 70) = true := by
      simp only [FVal.gtb, decide_eq_true_eq]
      norm_num
    constructor
    · simp [calculateTechnicalIndicators, h13, hr2]
    · simp [calculateTechnicalIndicators, h13, hr2, hgtb]

/-- C8 witness: the concrete strictly increasing 15-bar series 1..15 yields
RSI 100, overbought. -/
theorem c8_rsi_all_gains_witness :
    15 ≤ fifteenBars.length ∧
    List.Chain' (· < ·) (fifteenBars.map Bar.close) ∧
    (calculateTechnicalIndicators (fun _ => 0) fifteenBars).rsi =
      some (FVal.fin 100) ∧
    (calculateTechnicalIndicators (fun _ => 0) fifteenBars).rsi_signal =
      some "overbought" := by
  have hchain : List.Chain' (· < ·) (fifteenBars.map Bar.close) := by
    norm_num [fifteenBars, flatBar, List.chain'_cons]
  have hp := c8_rsi_all_gains (fun _ => 0) fifteenBars (by decide) hchain
  exact ⟨by decide, hchain, hp.1, hp.2⟩

/-- C9 counterexample: adding an already-tracked symbol is a no-op, but the
following remove still deletes it, so the round trip does not return the
persisted list to its pre-add state. -/
theorem c9_roundtrip_deletes_existing :
    (removeTrackedStock (addTrackedStock ["AAPL"] "AAPL").1 "AAPL").1 = [] ∧
    (["AAPL"] : List String) ≠ [] := by
  exact ⟨by decide, by decide⟩

/-- C9 as amended: when neither the symbol as passed nor its upper-cased
form is already tracked, add followed by remove restores the persisted list
exactly, and both steps write the list to disk. -/
theorem c9_roundtrip_restores (stocks : List String) (symbol : String)
    (h1 : symbol ∉ stocks) (h2 : pyUpper symbol ∉ stocks) :
    addTrackedStock stocks symbol = (stocks ++ [pyUpper symbol], true) ∧
    removeTrackedStock (addTrackedStock stocks symbol).1 symbol = (stocks, true) := by
  have hadd : addTrackedStock stocks symbol = (stocks ++ [pyUpper symbol], true) := by
    simp [addTrackedStock, h1]
  refine ⟨hadd, ?_⟩
  rw [hadd]
  have hmem : pyUpper symbol ∈ stocks ++ [pyUpper symbol] := by simp
  have herase : (stocks ++ [pyUpper symbol]).erase (pyUpper symbol) = stocks := by
    rw [List.erase_append_right _ h2, List.erase_cons_head, List.append_nil]
  simp [removeTrackedStock, hmem, herase]

/-- C9 witness: adding then removing `"aapl"` on a list that tracks only
`"MSFT"` restores the list and writes it. -/
theorem c9_roundtrip_restores_witness :
    ("aapl" ∉ (["MSFT"] : List String)) ∧ (pyUpper "aapl" ∉ (["MSFT"] : List String)) ∧
    addTrackedStock ["MSFT"] "aapl" = (["MSFT", "AAPL"], true) ∧
    removeTrackedStock (addTrackedStock ["MSFT"] "aapl").1 "aapl" = (["MSFT"], true) := by
  have h := c9_roundtrip_restores ["MSFT"] "aapl" (by decide) (by decide)
  exact ⟨by decide, by decide, by simpa using h.1, by simpa using h.2⟩

/-- C10: when the stored baseline for a symbol is 0, the percentage-change
computation and the alert are skipped entirely and the tick continues with
the baseline overwritten by the current price. -/
theorem c10_zero_baseline_skips_alert (lp : LastPrices) (sym : String) (p : ℚ)
    (sendOk : Bool) (rest : List (String × Option ℚ × Bool))
    (h : lookupPrice lp sym = some 0) :
    priceMonitorTick lp ((sym, some p, sendOk) :: rest) =
      priceMonitorTick (setPrice lp sym p) rest ∧
    (priceMonitorTick lp [(sym, some p, sendOk)]).2 = [] ∧
    lookupPrice (priceMonitorTick lp [(sym, some p, sendOk)]).1 sym = some p := by
  refine ⟨?_, ?_, ?_⟩
  · simp [priceMonitorTick, h]
  · simp [priceMonitorTick, h]
  · simp [priceMonitorTick, h, lookupPrice_setPrice]

/-- C10 witness: baseline 0 for `"A"`, price 5: no alert, baseline becomes
5, even though the alert send would fail. -/
theorem c10_zero_baseline_skips_alert_witness :
    lookupPrice [("A", (0 : ℚ))] "A" = some 0 ∧
    priceMonitorTick [("A", (0 : ℚ))] [("A", some 5, false)] =
      priceMonitorTick (setPrice [("A", (0 : ℚ))] "A" 5) [] ∧
    (priceMonitorTick [("A", (0 : ℚ))] [("A", some 5, false)]).2 = [] ∧
    lookupPrice (priceMonitorTick [("A", (0 : ℚ))] [("A", some 5, false)]).1 "A" = some 5 :=
  ⟨by decide, c10_zero_baseline_skips_alert [("A", (0 : ℚ))] "A" 5 false [] (by decide)⟩

end StockTrackr
